import Mathlib

/-!
Verification of the GG-Monad match lifecycle / settlement engine.

The client code (src/hooks/useGameRoom.ts and src/app/games/page.tsx) is
embedded shallowly: every ledger read a function performs is passed in
explicitly as the response of that read (`Option` = the call may fail or
return "not found"), numeric fields are `Nat`, and JavaScript float
multiplications by the literals 0.1 / 0.9 followed by Math.floor are embedded
as exact rational floors (x / 10 and x * 9 / 10 on `Nat`), which agree with
the float computation on all inputs of the size the UI handles.
-/

/-- A room record as returned by getRoomDetails (useGameRoom.ts, lines
    463-477): numeric fields as numbers, winner and creator as address
    strings, prizePool as the numeric value of its decimal string. -/
structure Room where
  id : Nat
  creator : String
  entryFee : Nat
  maxPlayers : Nat
  currentPlayers : Nat
  gameType : Nat
  status : Nat
  roomType : Nat
  creationTime : Nat
  expirationTime : Nat
  prizePool : Nat
  winner : String
  prizeClaimed : Bool
deriving DecidableEq

/-- A roster entry as built by getPlayersInRoom (useGameRoom.ts, lines
    516-541). -/
structure PlayerInRoom where
  playerAddress : String
  score : Nat
  hasSubmittedScore : Bool
  timestamp : Nat
deriving DecidableEq

/-- The gross pool / commission / net prize triple computed at a prize
    display call site. -/
structure PrizeParts where
  grossPool : Nat
  commission : Nat
  netPrize : Nat
deriving DecidableEq

/-- Prize computation of checkGameResult (games/page.tsx, lines 673-699):
    commissionRate = 10, commissionAmount = Math.floor(prizePool * 10 / 100),
    finalPrizeAmount = prizePool - commissionAmount. -/
def checkGameResultPrize (prizePool : Nat) : PrizeParts :=
  { grossPool := prizePool
    commission := prizePool * 10 / 100
    netPrize := prizePool - prizePool * 10 / 100 }

/-- Prize computation of handleClaimPrize (games/page.tsx, lines 769-773):
    textually the same formula as checkGameResult, applied to the freshly
    read room.prizePool. -/
def handleClaimPrizeCalc (prizePool : Nat) : PrizeParts :=
  { grossPool := prizePool
    commission := prizePool * 10 / 100
    netPrize := prizePool - prizePool * 10 / 100 }

/-- Prize breakdown rendering (games/page.tsx, lines 1262-1273):
    total = parseInt(entryFee) * maxPlayers,
    commission = Math.floor(total * 0.1)  (exact floor: total / 10),
    prize = Math.floor(total * 0.9)       (exact floor: total * 9 / 10). -/
def renderPrizeBreakdown (entryFee maxPlayers : Nat) : PrizeParts :=
  { grossPool := entryFee * maxPlayers
    commission := entryFee * maxPlayers / 10
    netPrize := entryFee * maxPlayers * 9 / 10 }

/-- The responses of the ledger reads performed along one run of submitScore
    (useGameRoom.ts, lines 268-338): room1 is the getRoomDetails read at the
    top of submitScore, players is the getPlayers read inside
    getPlayersInRoom, room2 is the getRoomDetails re-read inside
    getPlayersInRoom. `none` = the read failed or found nothing. Two room
    reads may disagree: the ledger can change between them. -/
structure LedgerView where
  room1 : Option Room
  players : Option (List String)
  room2 : Option Room
deriving DecidableEq

/-- JavaScript's String.prototype.toLowerCase on the address strings the
    engine compares, structural over the character list so that concrete runs
    reduce. -/
def lowerStr (s : String) : String := String.mk (s.data.map Char.toLower)

/-- getPlayersInRoom (useGameRoom.ts, lines 491-555), given the responses of
    its two ledger reads. A failed getPlayers call is caught and yields []
    (line 551); an empty or missing address list yields [] (lines 503-506); a
    missing room yields [] (lines 510-513); otherwise each non-empty address
    becomes an entry whose hasSubmittedScore is true exactly when the re-read
    room is Completed (status 2) with a non-empty winner equal to the address
    case-insensitively (lines 527-529); score and timestamp are always 0. -/
def getPlayersInRoomV (playersRead : Option (List String)) (roomRead : Option Room) :
    List PlayerInRoom :=
  match playersRead with
  | none => []
  | some addrs =>
    if addrs.isEmpty then []
    else
      match roomRead with
      | none => []
      | some room =>
        addrs.filterMap (fun a =>
          if a = "" then none
          else some
            { playerAddress := a
              score := 0
              hasSubmittedScore :=
                room.status == 2 && room.winner != "" &&
                  lowerStr room.winner == lowerStr a
              timestamp := 0 })

/-- The derived membership query of submitScore (useGameRoom.ts, lines
    302-308): the current user address lowercased must be non-empty and match
    some roster entry address case-insensitively. -/
def isMemberV (roster : List PlayerInRoom) (u : String) : Bool :=
  lowerStr u != "" &&
    roster.any (fun p =>
      p.playerAddress != "" && lowerStr p.playerAddress == lowerStr u)

/-- The derived prior-submission query of submitScore (useGameRoom.ts, lines
    317-323): like isMemberV but additionally requiring hasSubmittedScore. -/
def hasSubmittedV (roster : List PlayerInRoom) (u : String) : Bool :=
  lowerStr u != "" &&
    roster.any (fun p =>
      p.playerAddress != "" && lowerStr p.playerAddress == lowerStr u &&
        p.hasSubmittedScore)

/-- The status switch of submitScore (useGameRoom.ts, lines 287-293):
    statusText starts as "unknown" and is overwritten for statuses 0, 2, 3, 4. -/
def statusText (s : Nat) : String :=
  if s = 0 then "Filling"
  else if s = 2 then "Completed"
  else if s = 3 then "Expired"
  else if s = 4 then "Canceled"
  else "unknown"

/-- The result object of submitScore together with the count of mutating
    gameRoom.submitScore calls issued during the run. -/
structure SubmitOutcome where
  success : Bool
  errorMsg : String
  statusError : Bool
  notPlayerError : Bool
  alreadySubmittedError : Bool
  ledgerWrites : Nat
deriving DecidableEq

/-- submitScore (useGameRoom.ts, lines 268-338) given the responses of its
    ledger reads: room missing → plain failure; status ≠ 1 (Active) →
    statusError; not on the resolved roster → notPlayerError; roster says
    already submitted → alreadySubmittedError; otherwise the single mutating
    gameRoom.submitScore write is issued (ledgerWrites = 1). -/
def submitScoreV (v : LedgerView) (u : String) (roomId score : Nat) : SubmitOutcome :=
  match v.room1 with
  | none =>
    { success := false, errorMsg := "Room not found or has been deleted"
      statusError := false, notPlayerError := false, alreadySubmittedError := false
      ledgerWrites := 0 }
  | some room =>
    if room.status ≠ 1 then
      { success := false
        errorMsg := "Room must be in Active status to submit scores. Current status: "
          ++ statusText room.status
        statusError := true, notPlayerError := false, alreadySubmittedError := false
        ledgerWrites := 0 }
    else
      let roster := getPlayersInRoomV v.players v.room2
      if !(isMemberV roster u) then
        { success := false, errorMsg := "You are not a player in this room"
          statusError := false, notPlayerError := true, alreadySubmittedError := false
          ledgerWrites := 0 }
      else if hasSubmittedV roster u then
        { success := false, errorMsg := "You have already submitted a score for this room"
          statusError := false, notPlayerError := false, alreadySubmittedError := true
          ledgerWrites := 0 }
      else
        { success := true, errorMsg := ""
          statusError := false, notPlayerError := false, alreadySubmittedError := false
          ledgerWrites := 1 }

/-- hasPlayedInRoom after handleGameOver processes a submitScore result
    (games/page.tsx: line 557 sets it true on success; on failure the
    alreadySubmittedError branch sets it true at line 633, and lines 643-645
    set it false for every other failure). prev is the flag value before the
    call. -/
def handleGameOverFlag (prev : Bool) (r : SubmitOutcome) : Bool :=
  if r.success then true
  else
    let afterBranch := if r.alreadySubmittedError then true else prev
    if !r.alreadySubmittedError then false else afterBranch

/-- Whether needle is a prefix of hay, character by character. -/
def isPrefList : List Char → List Char → Bool
  | [], _ => true
  | _ :: _, [] => false
  | a :: as, b :: bs => a == b && isPrefList as bs

/-- Whether needle occurs as a contiguous substring of hay. -/
def hasSubList (needle : List Char) : List Char → Bool
  | [] => needle.isEmpty
  | c :: t => isPrefList needle (c :: t) || hasSubList needle t

/-- Whether the string needle occurs inside the string hay. -/
def strHasSub (hay needle : String) : Bool :=
  hasSubList needle.toList hay.toList

/-- Modelled from the spec: the ledger's per-player "has submitted a score"
    fact for a room. The GameRoom contract itself is not among the client
    sources; the spec (section 4.2) fixes the one property the client relies
    on: the transition Active → Completed fires when every roster member has
    submitted, so in a Completed room every joined player has submitted on
    the ledger. -/
structure LedgerFacts where
  submittedOnLedger : String → Bool

/-- Modelled from the spec: a ledger snapshot (facts, room, joined addresses)
    is spec-consistent when a Completed room only contains players that have
    submitted on the ledger (spec section 4.2). -/
def specConsistent (facts : LedgerFacts) (room : Room) (addrs : List String) : Prop :=
  room.status = 2 → ∀ a ∈ addrs, facts.submittedOnLedger a = true

/-- The browser timer table visible to the completion watcher: ids of live
    intervals and the next id setInterval will hand out. -/
structure SchedState where
  live : List Nat
  next : Nat
deriving DecidableEq

/-- setInterval: registers a fresh interval and returns its id. -/
def setIntervalS (s : SchedState) : Nat × SchedState :=
  (s.next, { live := s.live ++ [s.next], next := s.next + 1 })

/-- clearInterval: removes the interval with the given id. -/
def clearIntervalS (s : SchedState) (i : Nat) : SchedState :=
  { s with live := s.live.filter (fun j => j ≠ i) }

/-- The completion-polling branch of handleGameOver (games/page.tsx, lines
    593-609): a fresh setInterval with a 5-second period; the handle is held
    only in a local constant, and no prior watcher is looked up or cleared
    before registering the new one. -/
def startCompletionWatcher (s : SchedState) : SchedState :=
  (setIntervalS s).2

/-- One tick of the watcher with interval id i (games/page.tsx, lines
    594-606): re-reads the room; on status 2 (Completed) it clears its own
    interval; on any other status or a failed read (caught) it leaves the
    timer table unchanged. -/
def watcherTick (s : SchedState) (i : Nat) (roomRead : Option Room) : SchedState :=
  match roomRead with
  | none => s
  | some room => if room.status = 2 then clearIntervalS s i else s

/-- The 2-minute setTimeout of handleGameOver (games/page.tsx, line 609):
    clears the interval with id i. -/
def watcherTimeout (s : SchedState) (i : Nat) : SchedState :=
  clearIntervalS s i

/-- A row of the active-rooms list as built by loadActiveRooms
    (games/page.tsx, lines 434-441); entry holds the numeric entry fee. -/
structure RoomSummary where
  id : Nat
  game : String
  entry : Nat
  players : String
  time : String
  type : String
deriving DecidableEq

/-- formatTimeAgo (games/page.tsx, lines 475-483) with the current clock
    passed explicitly; diff = now - timestamp (the page only renders rooms
    created in the past, so Nat subtraction matches). -/
def formatTimeAgo (now ts : Nat) : String :=
  let diff := now - ts
  if diff < 60 then "just now"
  else if diff < 3600 then toString (diff / 60) ++ " min ago"
  else if diff < 86400 then toString (diff / 3600) ++ " hours ago"
  else toString (diff / 86400) ++ " days ago"

/-- The numeric value of a digit character. -/
def digitVal (c : Char) : Nat := c.toNat - 48

/-- JavaScript parseInt on the strings formatTimeAgo produces: the leading
    run of digits as a number, or none (NaN) when the string does not start
    with a digit ("just now"). -/
def parseIntLeading (s : String) : Option Nat :=
  match s.toList with
  | [] => none
  | c :: _ =>
    if c.isDigit then
      some ((s.toList.takeWhile Char.isDigit).foldl (fun n d => n * 10 + digitVal d) 0)
    else none

/-- The precedence induced by the sort comparator of loadActiveRooms
    (games/page.tsx, lines 454-458), (a, b) => bTime - aTime with
    bTime/aTime = parseInt of the rendered time strings: a may stay before b
    when the comparator is ≤ 0, and a NaN on either side makes the comparator
    0 (order kept). -/
def roomLe (a b : RoomSummary) : Bool :=
  match parseIntLeading a.time, parseIntLeading b.time with
  | some x, some y => y ≤ x
  | _, _ => true

/-- Stable insertion with respect to a precedence relation: x is placed
    before the first element it may precede. -/
def insertCmp (le : RoomSummary → RoomSummary → Bool) (x : RoomSummary) :
    List RoomSummary → List RoomSummary
  | [] => [x]
  | y :: ys => if le x y then x :: y :: ys else y :: insertCmp le x ys

/-- Array.prototype.sort (required stable) modelled as stable insertion sort
    with the comparator-induced precedence. -/
def sortCmp (le : RoomSummary → RoomSummary → Bool) : List RoomSummary → List RoomSummary
  | [] => []
  | x :: xs => insertCmp le x (sortCmp le xs)

/-- The dedup step of loadActiveRooms (games/page.tsx, lines 449-451),
    Array.from(new Map(rooms.map(r => [r.id, r])).values()): JavaScript Map
    keeps the first-insertion position of a key and its last value. -/
def dedupById (l : List RoomSummary) : List RoomSummary :=
  l.foldl
    (fun acc r =>
      if acc.any (fun x => x.id == r.id)
      then acc.map (fun x => if x.id == r.id then r else x)
      else acc ++ [r])
    []

/-- loadActiveRooms (games/page.tsx, lines 391-472) given the per-id
    getRoomDetails responses and the clock: ids 1..50 are fetched in order
    (the batches of 5 are sequential and order-preserving, so batching does
    not affect the resulting list), erroring ids are caught to null and
    dropped, only status 0 (Filling) rooms are kept, a falsy id 0 is dropped,
    rows are built as in the source, then deduplicated by id and sorted with
    the parseInt-of-time comparator. -/
def loadActiveRooms (getRoomResult : Nat → Option Room) (now : Nat) : List RoomSummary :=
  let roomIds := (List.range 50).map (fun i => i + 1)
  let fillingRooms := roomIds.filterMap (fun i =>
    match getRoomResult i with
    | none => none
    | some room =>
      if room.status = 0 then
        if room.id = 0 then none
        else some
          { id := room.id
            game := if room.gameType = 0 then "FLAPPY BIRD" else "AI CHALLENGE"
            entry := room.entryFee
            players := toString room.currentPlayers ++ "/" ++ toString room.maxPlayers
            time := formatTimeAgo now room.creationTime
            type := if room.roomType = 0 then "PUBLIC" else "PRIVATE" }
      else none)
  sortCmp roomLe (dedupById fillingRooms)

/-- First-occurrence deduplication, the order Array.from(new Set(xs))
    produces. -/
def dedupFirst (l : List Int) : List Int :=
  l.foldl (fun acc x => if x ∈ acc then acc else acc ++ [x]) []

/-- getUserRooms (useGameRoom.ts, lines 402-433) given the response of the
    gameRoom.getPlayerRooms read: a failed read is caught and yields [] (line
    429); otherwise ids ≤ 0 are filtered out (line 417) and duplicates are
    removed Set-style keeping first occurrences (line 420). -/
def getUserRooms (res : Option (List Int)) : List Int :=
  match res with
  | none => []
  | some rooms => dedupFirst (rooms.filter (fun i => 0 < i))

/- Concrete inputs used by the closed theorems below. -/

/-- An Active two-player room whose roster read will fail. -/
def roomActive2 : Room :=
  { id := 3, creator := "0xcc", entryFee := 10, maxPlayers := 2, currentPlayers := 2
    gameType := 0, status := 1, roomType := 0, creationTime := 500
    expirationTime := 2000, prizePool := 20, winner := "", prizeClaimed := false }

/-- A run of submitScore in which the getPlayers read fails. -/
def viewRosterFail : LedgerView :=
  { room1 := some roomActive2, players := none, room2 := some roomActive2 }

/-- A Filling room with one of two seats taken. -/
def roomFilling : Room :=
  { id := 4, creator := "0xcc", entryFee := 10, maxPlayers := 2, currentPlayers := 1
    gameType := 0, status := 0, roomType := 0, creationTime := 500
    expirationTime := 2000, prizePool := 10, winner := "", prizeClaimed := false }

/-- A run of submitScore against the Filling room. -/
def viewFilling : LedgerView :=
  { room1 := some roomFilling, players := some ["0xaa"], room2 := some roomFilling }

/-- A Completed two-player room won by 0xaa. -/
def roomCompleted : Room :=
  { id := 5, creator := "0xaa", entryFee := 10, maxPlayers := 2, currentPlayers := 2
    gameType := 0, status := 2, roomType := 0, creationTime := 500
    expirationTime := 2000, prizePool := 20, winner := "0xaa", prizeClaimed := false }

/-- The joined players of roomCompleted. -/
def addrsCompleted : List String := ["0xaa", "0xbb"]

/-- Ledger truth for roomCompleted: both players submitted (spec section 4.2
    forces this in a Completed room). -/
def factsCompleted : LedgerFacts :=
  { submittedOnLedger := fun a => a == "0xaa" || a == "0xbb" }

/-- A run of submitScore whose first room read sees Active and whose roster
    re-read sees the same room already Completed with winner 0xbb. -/
def roomActiveBB : Room :=
  { id := 6, creator := "0xbb", entryFee := 10, maxPlayers := 2, currentPlayers := 2
    gameType := 0, status := 1, roomType := 0, creationTime := 500
    expirationTime := 2000, prizePool := 20, winner := "", prizeClaimed := false }

/-- roomActiveBB as re-read after the ledger completed it. -/
def roomCompletedBB : Room :=
  { id := 6, creator := "0xbb", entryFee := 10, maxPlayers := 2, currentPlayers := 2
    gameType := 0, status := 2, roomType := 0, creationTime := 500
    expirationTime := 2000, prizePool := 20, winner := "0xbb", prizeClaimed := false }

/-- The read responses of that run. -/
def viewAlready : LedgerView :=
  { room1 := some roomActiveBB, players := some ["0xaa", "0xbb"]
    room2 := some roomCompletedBB }

/-- The empty timer table. -/
def schedInit : SchedState := { live := [], next := 0 }

/-- A Filling room created at time 400 (10 minutes before clock 1000). -/
def roomOlder : Room :=
  { id := 1, creator := "0xcc", entryFee := 10, maxPlayers := 2, currentPlayers := 1
    gameType := 0, status := 0, roomType := 0, creationTime := 400
    expirationTime := 2000, prizePool := 10, winner := "", prizeClaimed := false }

/-- A Filling room created at time 880 (2 minutes before clock 1000). -/
def roomNewer : Room :=
  { id := 2, creator := "0xdd", entryFee := 10, maxPlayers := 2, currentPlayers := 1
    gameType := 0, status := 0, roomType := 0, creationTime := 880
    expirationTime := 2000, prizePool := 10, winner := "", prizeClaimed := false }

/-- A ledger holding exactly roomOlder (id 1) and roomNewer (id 2). -/
def ledgerTwoRooms : Nat → Option Room :=
  fun i => if i = 1 then some roomOlder else if i = 2 then some roomNewer else none

/-- C1: the three prize display call sites evaluated at entryFee = 5,
    maxPlayers = 3 (prizePool = 15): checkGameResult and the claim flow both
    yield netPrize 14, but the prize-breakdown rendering yields netPrize 13
    because it floors total * 0.9 instead of subtracting the floored
    commission — the three sites do not agree on every pair. -/
theorem prize_sites_disagree :
    checkGameResultPrize (5 * 3) = { grossPool := 15, commission := 1, netPrize := 14 } ∧
    handleClaimPrizeCalc (5 * 3) = { grossPool := 15, commission := 1, netPrize := 14 } ∧
    renderPrizeBreakdown 5 3 = { grossPool := 15, commission := 1, netPrize := 13 } ∧
    (renderPrizeBreakdown 5 3).netPrize ≠ (checkGameResultPrize (5 * 3)).netPrize := by
  decide

/-- C4 counterexample: at entryFee = 7, maxPlayers = 3 the prize-breakdown
    rendering gives netPrize + commission = 18 + 2 = 20 ≠ 21 = entryFee *
    maxPlayers, so the conservation identity fails at that call site. -/
theorem render_breaks_conservation :
    (renderPrizeBreakdown 7 3).netPrize + (renderPrizeBreakdown 7 3).commission ≠ 7 * 3 := by
  decide

/-- C4 (amended): for all entryFee ≥ 0 and maxPlayers ≥ 2, netPrize +
    commission = entryFee * maxPlayers holds exactly for the checkGameResult
    and claim-flow computations (whose net is gross minus the single floored
    commission); the prize-breakdown rendering satisfies the identity exactly
    when 10 divides the gross pool; and the scenario entryFee = 50,
    maxPlayers = 2 gives grossPool = 100, commission = 10, netPrize = 90. -/
theorem prize_conservation_amended (fee mp : Nat) (h : 2 ≤ mp) :
    (checkGameResultPrize (fee * mp)).netPrize + (checkGameResultPrize (fee * mp)).commission
      = fee * mp ∧
    (handleClaimPrizeCalc (fee * mp)).netPrize + (handleClaimPrizeCalc (fee * mp)).commission
      = fee * mp ∧
    ((renderPrizeBreakdown fee mp).netPrize + (renderPrizeBreakdown fee mp).commission
      = fee * mp ↔ fee * mp % 10 = 0) ∧
    checkGameResultPrize (50 * 2) = { grossPool := 100, commission := 10, netPrize := 90 } := by
  have key : ∀ P : Nat,
      (P - P * 10 / 100) + P * 10 / 100 = P ∧ (P * 9 / 10 + P / 10 = P ↔ P % 10 = 0) := by
    intro P
    omega
  refine ⟨?_, ?_, ?_, by decide⟩
  · simpa [checkGameResultPrize] using (key (fee * mp)).1
  · simpa [handleClaimPrizeCalc] using (key (fee * mp)).1
  · simpa [renderPrizeBreakdown] using (key (fee * mp)).2

/-- Witness for prize_conservation_amended at entryFee = 50, maxPlayers = 2. -/
theorem prize_conservation_amended_witness :
    2 ≤ 2 ∧
    checkGameResultPrize (50 * 2) = { grossPool := 100, commission := 10, netPrize := 90 } :=
  ⟨by decide, (prize_conservation_amended 50 2 (by decide)).2.2.2⟩

/-- C2: whenever the room read at the top of submitScore shows a non-Active
    status, or the resolved roster does not contain the submitter, or the
    resolved roster marks the submitter as having submitted, submitScore
    returns the rejection of the first failing precondition — checked in the
    order status, membership, prior submission — and issues zero mutating
    gameRoom.submitScore calls. -/
theorem trySubmit_no_write_on_reject (v : LedgerView) (u : String) (rid sc : Nat)
    (room : Room) (h : v.room1 = some room) :
    (room.status ≠ 1 →
      submitScoreV v u rid sc =
        { success := false
          errorMsg := "Room must be in Active status to submit scores. Current status: "
            ++ statusText room.status
          statusError := true, notPlayerError := false, alreadySubmittedError := false
          ledgerWrites := 0 }) ∧
    (room.status = 1 →
      isMemberV (getPlayersInRoomV v.players v.room2) u = false →
      submitScoreV v u rid sc =
        { success := false, errorMsg := "You are not a player in this room"
          statusError := false, notPlayerError := true, alreadySubmittedError := false
          ledgerWrites := 0 }) ∧
    (room.status = 1 →
      isMemberV (getPlayersInRoomV v.players v.room2) u = true →
      hasSubmittedV (getPlayersInRoomV v.players v.room2) u = true →
      submitScoreV v u rid sc =
        { success := false, errorMsg := "You have already submitted a score for this room"
          statusError := false, notPlayerError := false, alreadySubmittedError := true
          ledgerWrites := 0 }) := by
  refine ⟨fun hst => ?_, fun hst hmem => ?_, fun hst hmem hsub => ?_⟩
  · simp only [submitScoreV, h]
    rw [if_pos hst]
  · simp only [submitScoreV, h]
    rw [if_neg (by simp [hst])]
    simp [hmem]
  · simp only [submitScoreV, h]
    rw [if_neg (by simp [hst])]
    simp [hmem, hsub]

/-- Witness for trySubmit_no_write_on_reject: a run whose first room read is
    Active but whose roster re-read already shows the winner, so the prior
    submission check fires with zero writes. -/
theorem trySubmit_no_write_on_reject_witness :
    viewAlready.room1 = some roomActiveBB ∧
    (submitScoreV viewAlready "0xbb" 6 5).alreadySubmittedError = true ∧
    (submitScoreV viewAlready "0xbb" 6 5).ledgerWrites = 0 := by
  refine ⟨rfl, ?_, ?_⟩ <;>
  · have h := (trySubmit_no_write_on_reject viewAlready "0xbb" 6 5 roomActiveBB rfl).2.2
      rfl (by decide) (by decide)
    rw [h]

/-- C3 counterexample: in the spec-consistent Completed room roomCompleted
    (winner 0xaa, both players submitted on the ledger), the resolver returns
    the entry for 0xbb with hasSubmittedScore = false even though 0xbb has
    submitted on the ledger, so hasSubmittedScore is not equivalent to the
    ledger submission fact. -/
theorem roster_flag_misses_ledger_submission :
    specConsistent factsCompleted roomCompleted addrsCompleted ∧
    ({ playerAddress := "0xbb", score := 0, hasSubmittedScore := false,
        timestamp := 0 } : PlayerInRoom)
      ∈ getPlayersInRoomV (some addrsCompleted) (some roomCompleted) ∧
    factsCompleted.submittedOnLedger "0xbb" = true := by
  refine ⟨?_, by decide, rfl⟩
  intro _ a ha
  simp only [addrsCompleted, List.mem_cons, List.mem_singleton, List.not_mem_nil,
    or_false] at ha
  rcases ha with rfl | rfl <;> rfl

/-- C3 (amended): a roster entry's hasSubmittedScore is true exactly when the
    re-read room is Completed (status 2) with a non-empty winner equal to the
    entry's address case-insensitively; in particular every entry of an
    Active room is reported as not submitted, regardless of the ledger's
    actual submission facts. -/
theorem roster_flag_characterization (players : List String) (room : Room)
    (e : PlayerInRoom) (he : e ∈ getPlayersInRoomV (some players) (some room)) :
    (e.hasSubmittedScore = true ↔
      room.status = 2 ∧ room.winner ≠ "" ∧
        lowerStr room.winner = lowerStr e.playerAddress) ∧
    (room.status = 1 → e.hasSubmittedScore = false) := by
  simp only [getPlayersInRoomV] at he
  by_cases hemp : players.isEmpty
  · rw [if_pos hemp] at he
    cases he
  · rw [if_neg hemp] at he
    obtain ⟨a, -, hfa⟩ := List.mem_filterMap.mp he
    by_cases haz : a = ""
    · rw [if_pos haz] at hfa
      cases hfa
    · rw [if_neg haz] at hfa
      injection hfa with hfa
      subst hfa
      constructor
      · simp only [Bool.and_eq_true, beq_iff_eq, bne_iff_ne]
        tauto
      · intro h1
        simp [h1]

/-- Witness for roster_flag_characterization at the winner entry of the
    Completed room roomCompleted. -/
theorem roster_flag_characterization_witness :
    ({ playerAddress := "0xaa", score := 0, hasSubmittedScore := true,
        timestamp := 0 } : PlayerInRoom)
      ∈ getPlayersInRoomV (some addrsCompleted) (some roomCompleted) ∧
    (({ playerAddress := "0xaa", score := 0, hasSubmittedScore := true,
        timestamp := 0 } : PlayerInRoom).hasSubmittedScore = true ↔
      roomCompleted.status = 2 ∧ roomCompleted.winner ≠ "" ∧
        lowerStr roomCompleted.winner = lowerStr
          ({ playerAddress := "0xaa", score := 0, hasSubmittedScore := true,
              timestamp := 0 } : PlayerInRoom).playerAddress) := by
  refine ⟨by decide, ?_⟩
  exact (roster_flag_characterization addrsCompleted roomCompleted _ (by decide)).1

/-- C5: after a rejected score submission, handleGameOver leaves
    hasPlayedInRoom equal to the alreadySubmittedError flag of the result —
    true exactly for AlreadySubmittedError, false for every other rejection
    reason, whatever the flag's previous value was. -/
theorem played_flag_iff_already (prev : Bool) (r : SubmitOutcome)
    (h : r.success = false) :
    handleGameOverFlag prev r = r.alreadySubmittedError := by
  cases halr : r.alreadySubmittedError <;>
    simp [handleGameOverFlag, h, halr]

/-- Witness for played_flag_iff_already on the StatusError rejection produced
    by submitting into the Filling room roomFilling. -/
theorem played_flag_iff_already_witness :
    (submitScoreV viewFilling "0xaa" 4 5).success = false ∧
    handleGameOverFlag false (submitScoreV viewFilling "0xaa" 4 5)
      = (submitScoreV viewFilling "0xaa" 4 5).alreadySubmittedError :=
  ⟨by decide, played_flag_iff_already false _ (by decide)⟩

/-- C6 counterexample: starting the completion watcher twice from an empty
    timer table leaves both intervals 0 and 1 live — the restart does not
    cancel the prior loop, so the claimed "exactly one active poll loop"
    fails. -/
theorem watcher_restart_leaves_two :
    (startCompletionWatcher (startCompletionWatcher schedInit)).live = [0, 1] ∧
    (startCompletionWatcher (startCompletionWatcher schedInit)).live.length ≠ 1 := by
  decide

/-- C6 (amended): starting the completion watcher never cancels a prior loop
    — it only appends a fresh interval, so a start-then-restart sequence for
    the same room leaves two active poll loops; a loop disappears only when
    its own tick observes status Completed or its own 2-minute timeout
    fires. -/
theorem watcher_no_cancellation (s : SchedState) (i : Nat) (room : Room) :
    (startCompletionWatcher s).live = s.live ++ [s.next] ∧
    (startCompletionWatcher (startCompletionWatcher s)).live.length
      = s.live.length + 2 ∧
    (watcherTick s i (some room)).live =
      (if room.status = 2 then s.live.filter (fun j => j ≠ i) else s.live) ∧
    (watcherTimeout s i).live = s.live.filter (fun j => j ≠ i) := by
  refine ⟨rfl, ?_, ?_, rfl⟩
  · simp [startCompletionWatcher, setIntervalS]
  · by_cases h2 : room.status = 2 <;> simp [watcherTick, clearIntervalS, h2]

/-- C7: with rooms 1 (created at 400, "10 min ago") and 2 (created at 880,
    "2 min ago") both Filling at clock 1000, loadActiveRooms returns
    [room 1, room 2] — ascending creation time — because it sorts by the
    parseInt of the rendered age strings with comparator b - a, contradicting
    the required (and commented) newest-first order. -/
theorem loadActiveRooms_oldest_first :
    roomOlder.creationTime < roomNewer.creationTime ∧
    (loadActiveRooms ledgerTwoRooms 1000).map (fun r => r.id) = [1, 2] := by
  refine ⟨by decide, by decide⟩

/-- C8 counterexample: on the Active room roomActive2 with currentPlayers =
    2, a failed roster read makes the resolver return the empty sequence and
    the submission gate then rejects the submitter with NotPlayerError —
    the gate does not treat the empty roster as unknown. -/
theorem gate_rejects_on_empty_roster :
    getPlayersInRoomV viewRosterFail.players viewRosterFail.room2 = [] ∧
    roomActive2.currentPlayers = 2 ∧
    (submitScoreV viewRosterFail "0xaa" 3 7).notPlayerError = true ∧
    (submitScoreV viewRosterFail "0xaa" 3 7).success = false := by
  decide

/-- C8 (amended): if the roster read fails the resolver returns the empty
    sequence instead of propagating the error, but the submission gate then
    treats the empty roster as non-membership: on an Active room it rejects
    every submitter with NotPlayerError (with zero ledger writes), even when
    the room has currentPlayers > 0. -/
theorem resolver_empty_then_notPlayer (v : LedgerView) (u : String) (rid sc : Nat)
    (room : Room) (hp : v.players = none) (hr : v.room1 = some room)
    (hs : room.status = 1) :
    getPlayersInRoomV v.players v.room2 = [] ∧
    (submitScoreV v u rid sc).notPlayerError = true ∧
    (submitScoreV v u rid sc).ledgerWrites = 0 := by
  have hros : getPlayersInRoomV v.players v.room2 = [] := by
    rw [hp]
    rfl
  refine ⟨hros, ?_, ?_⟩ <;>
  · simp [submitScoreV, hr, hs, hros, isMemberV]

/-- Witness for resolver_empty_then_notPlayer on viewRosterFail. -/
theorem resolver_empty_then_notPlayer_witness :
    viewRosterFail.players = none ∧ viewRosterFail.room1 = some roomActive2 ∧
    roomActive2.status = 1 ∧
    (submitScoreV viewRosterFail "0xdd" 3 9).notPlayerError = true := by
  refine ⟨rfl, rfl, rfl, ?_⟩
  exact (resolver_empty_then_notPlayer viewRosterFail "0xdd" 3 9 roomActive2
    rfl rfl rfl).2.1

/-- C9: submitting into a room read as Filling (status 0) — in particular one
    with maxPlayers = 2 and currentPlayers = 1 — is rejected with statusError
    and an error message mentioning "Filling", and statusText gives pairwise
    distinct labels to the statuses Filling, Completed, Expired and Canceled,
    so the message disambiguates Filling from every other non-Active state. -/
theorem submit_filling_statusError (v : LedgerView) (u : String) (rid sc : Nat)
    (room : Room) (h : v.room1 = some room) (hmax : room.maxPlayers = 2)
    (hcur : room.currentPlayers = 1) (hs : room.status = 0) :
    (submitScoreV v u rid sc).statusError = true ∧
    (submitScoreV v u rid sc).success = false ∧
    strHasSub (submitScoreV v u rid sc).errorMsg "Filling" = true ∧
    statusText 0 ≠ statusText 2 ∧ statusText 0 ≠ statusText 3 ∧
    statusText 0 ≠ statusText 4 ∧ statusText 2 ≠ statusText 3 ∧
    statusText 2 ≠ statusText 4 ∧ statusText 3 ≠ statusText 4 := by
  have hne : room.status ≠ 1 := by
    rw [hs]
    decide
  have hout : submitScoreV v u rid sc =
      { success := false
        errorMsg := "Room must be in Active status to submit scores. Current status: "
          ++ statusText room.status
        statusError := true, notPlayerError := false, alreadySubmittedError := false
        ledgerWrites := 0 } := by
    simp only [submitScoreV, h]
    rw [if_pos hne]
  rw [hout, hs]
  exact ⟨rfl, rfl, by decide, by decide, by decide, by decide, by decide,
    by decide, by decide⟩

/-- Witness for submit_filling_statusError on the Filling room roomFilling. -/
theorem submit_filling_statusError_witness :
    viewFilling.room1 = some roomFilling ∧ roomFilling.maxPlayers = 2 ∧
    roomFilling.currentPlayers = 1 ∧ roomFilling.status = 0 ∧
    strHasSub (submitScoreV viewFilling "0xaa" 4 5).errorMsg "Filling" = true := by
  refine ⟨rfl, rfl, rfl, rfl, ?_⟩
  exact (submit_filling_statusError viewFilling "0xaa" 4 5 roomFilling
    rfl rfl rfl rfl).2.2.1

/-- Auxiliary: the Set-style fold of getUserRooms keeps the accumulator
    duplicate-free and only ever adds elements of the traversed list. -/
theorem dedupFirst_aux (l : List Int) :
    ∀ acc : List Int, acc.Nodup →
      (l.foldl (fun acc x => if x ∈ acc then acc else acc ++ [x]) acc).Nodup ∧
      ∀ y ∈ l.foldl (fun acc x => if x ∈ acc then acc else acc ++ [x]) acc,
        y ∈ acc ∨ y ∈ l := by
  induction l with
  | nil =>
    intro acc h
    exact ⟨h, fun y hy => Or.inl hy⟩
  | cons x xs ih =>
    intro acc hacc
    simp only [List.foldl_cons]
    by_cases hx : x ∈ acc
    · rw [if_pos hx]
      obtain ⟨h1, h2⟩ := ih acc hacc
      exact ⟨h1, fun y hy => (h2 y hy).imp id (List.mem_cons_of_mem x)⟩
    · rw [if_neg hx]
      have hacc2 : (acc ++ [x]).Nodup := by
        simp [List.nodup_append, hacc, hx]
      obtain ⟨h1, h2⟩ := ih (acc ++ [x]) hacc2
      refine ⟨h1, fun y hy => ?_⟩
      rcases h2 y hy with hmem | hmem
      · rcases List.mem_append.mp hmem with hin | hin
        · exact Or.inl hin
        · simp only [List.mem_singleton] at hin
          subst hin
          exact Or.inr (List.mem_cons_self _ _)
      · exact Or.inr (List.mem_cons_of_mem x hmem)

/-- C10: getUserRooms always returns strictly positive, pairwise distinct
    room ids — even when the raw gameRoom.getPlayerRooms result contains
    zero-valued or duplicate ids — and returns the empty list when the
    ledger read fails. -/
theorem getUserRooms_valid (res : Option (List Int)) :
    (∀ x ∈ getUserRooms res, 0 < x) ∧ (getUserRooms res).Nodup ∧
    (res = none → getUserRooms res = []) := by
  rcases res with _ | rooms
  · refine ⟨?_, ?_, fun _ => rfl⟩
    · intro x hx
      simp [getUserRooms] at hx
    · simp [getUserRooms]
  · have h := dedupFirst_aux (rooms.filter (fun i => 0 < i)) [] List.nodup_nil
    refine ⟨?_, ?_, ?_⟩
    · intro x hx
      have hx2 : x ∈ ([] : List Int) ∨ x ∈ rooms.filter (fun i => 0 < i) := by
        apply h.2
        simpa [getUserRooms, dedupFirst] using hx
      rcases hx2 with hc | hc
      · cases hc
      · simpa using (List.mem_filter.mp hc).2
    · simpa [getUserRooms, dedupFirst] using h.1
    · intro hcontra
      cases hcontra

/-- Witness for getUserRooms_valid on a raw id list with a zero, a duplicate
    and a negative id. -/
theorem getUserRooms_valid_witness :
    (∀ x ∈ getUserRooms (some [0, 7, 7, -2, 3]), 0 < x) ∧
    (getUserRooms (some [0, 7, 7, -2, 3])).Nodup :=
  ⟨(getUserRooms_valid (some [0, 7, 7, -2, 3])).1,
    (getUserRooms_valid (some [0, 7, 7, -2, 3])).2.1⟩
